import Mathlib

/-!
Verification of the das-grid 2D grid library (current revision, `src/grid.rs`).

The embedding below translates `src/grid.rs` definition by definition:

* `Grid<T>` is a structure holding `frame_size : (i32, i32)` (rows, cols),
  `cell_size : (f32, f32)` (inert metadata, modelled by a pair of rationals —
  no arithmetic is ever performed on it), a `default_value` and the flat
  backing vector `cells : Vec<T>` (a `List T`).
* `i32` values are modelled by `Int`.  The only place a cast occurs is the
  `(x * rows + y) as usize` index cast in `get`/`set`/`get_mut`; it is reached
  only after `check_grid_bounds` succeeded, which forces `x ≥ 0`, `y ≥ 0` and
  `rows > 0`, so the cast value is the nonnegative integer itself and is
  modelled by `Int.toNat`.  Theorems that quantify over grid dimensions carry
  the hypothesis `rows * cols ≤ 2147483647` so that the unbounded-`Int`
  arithmetic agrees with Rust's `i32` arithmetic on every considered input.
* Rust `Result<A, DasGridError>` becomes `Except DasGridError A`; methods on
  `&mut self` return the pair (result, updated grid).
* A Rust `panic!` (in the constructors, and the `.unwrap()` inside `mov`) is
  modelled by returning `none` from an `Option`-valued function.
* `Vec::get`/`Vec::get_mut` become `List.getElem?`; the in-place store
  `if let Some(cell) = self.cells.get_mut(i) { *cell = *value }` becomes
  `List.set`, which likewise leaves the list unchanged when the index is out
  of range.
-/

namespace DasGrid

instance {ε α : Type} [DecidableEq ε] [DecidableEq α] : DecidableEq (Except ε α) := fun a b =>
  match a, b with
  | .error e, .error f =>
      if h : e = f then isTrue (congrArg Except.error h)
      else isFalse fun hc => h (by injection hc)
  | .error _, .ok _ => isFalse fun hc => by injection hc
  | .ok _, .error _ => isFalse fun hc => by injection hc
  | .ok x, .ok y =>
      if h : x = y then isTrue (congrArg Except.ok h)
      else isFalse fun hc => h (by injection hc)

/-- Modelled from the spec: the error taxonomy of §7.  The enum itself is
declared in the crate root of the current revision, which is not part of the
sources; its four variants are exactly the ones `src/grid.rs` constructs
(`OutOfGrid`, `RuleFailed`, `SubgridOverflow`, `ValueNotFound`). -/
inductive DasGridError where
  | OutOfGrid
  | RuleFailed
  | SubgridOverflow
  | ValueNotFound
deriving DecidableEq, Repr

/-- The possible directions to move (`MoveDirection` in `src/grid.rs`). -/
inductive MoveDirection where
  | Right
  | Left
  | Up
  | Down
deriving DecidableEq, Repr

/-- Constant `MOVE_RIGHT` in `src/grid.rs`: `(1, 0)`. -/
def MOVE_RIGHT : Int × Int := (1, 0)

/-- Constant `MOVE_LEFT` in `src/grid.rs`: `(-1, 0)`. -/
def MOVE_LEFT : Int × Int := (-1, 0)

/-- Constant `MOVE_UP` in `src/grid.rs`: `(0, -1)`. -/
def MOVE_UP : Int × Int := (0, -1)

/-- Constant `MOVE_DOWN` in `src/grid.rs`: `(0, 1)`. -/
def MOVE_DOWN : Int × Int := (0, 1)

/-- The direction-to-offset table shared by `mov_to` and
`mov_to_with_rules` in `src/grid.rs`. -/
def MoveDirection.offset : MoveDirection → Int × Int
  | .Up => MOVE_UP
  | .Down => MOVE_DOWN
  | .Left => MOVE_LEFT
  | .Right => MOVE_RIGHT

/-- Structure `Grid<T>` from `src/grid.rs`: `frame_size` is the `(rows, cols)` pair,
`cell_size` is inert visual metadata, `cells` the flat backing vector. -/
structure Grid (T : Type) where
  frame_size : Int × Int
  cell_size : Rat × Rat
  default_value : T
  cells : List T
deriving DecidableEq

variable {T : Type}

/-- Source `Grid::rows`: the first component of `frame_size`. -/
def Grid.rows (g : Grid T) : Int := g.frame_size.1

/-- Source `Grid::cols`: the second component of `frame_size`. -/
def Grid.cols (g : Grid T) : Int := g.frame_size.2

/-- Source `Grid::size`: the length of the backing vector. -/
def Grid.size (g : Grid T) : Nat := g.cells.length

/-- Source `Grid::new`.  Panics (`none`) iff `rows * cols == 0`, otherwise allocates
`rows * cols` copies of the default value. -/
def Grid.new (frame_size : Int × Int) (cell_size : Rat × Rat) (default_value : T) :
    Option (Grid T) :=
  if frame_size.1 * frame_size.2 = 0 then
    none
  else
    some { frame_size := frame_size
           cell_size := cell_size
           default_value := default_value
           cells := List.replicate (frame_size.1 * frame_size.2).toNat default_value }

/-- Source `Grid::new_from_vector`.  Panics (`none`) when the vector length is odd,
when it is zero, or when it differs from `rows * cols`; otherwise the grid's
default value becomes the vector's first element. -/
def Grid.new_from_vector (frame_size : Int × Int) (cell_size : Rat × Rat) (vec : List T) :
    Option (Grid T) :=
  if vec.length % 2 ≠ 0 then
    none
  else if vec.length = 0 then
    none
  else if frame_size.1 * frame_size.2 ≠ (vec.length : Int) then
    none
  else
    match vec.head? with
    | none => none
    | some default_value =>
        some { frame_size := frame_size
               cell_size := cell_size
               default_value := default_value
               cells := vec }

/-- Source `Grid::check_grid_overflow`: the sub-grid may not be wider or taller than
the destination grid (cols compared first, as in the source). -/
def Grid.check_grid_overflow (self : Grid T) (sub_grid : Grid T) :
    Except DasGridError Unit :=
  if sub_grid.cols > self.cols then .error .SubgridOverflow
  else if sub_grid.rows > self.rows then .error .SubgridOverflow
  else .ok ()

/-- Source `Grid::check_grid_bounds`: with `(rows, cols) = frame_size` and
`(x, y) = dst`, fails when `x < 0 ∨ x ≥ cols`, then when `y < 0 ∨ y ≥ rows`. -/
def Grid.check_grid_bounds (self : Grid T) (dst : Int × Int) :
    Except DasGridError Unit :=
  if dst.1 < 0 ∨ dst.1 ≥ self.cols then .error .OutOfGrid
  else if dst.2 < 0 ∨ dst.2 ≥ self.rows then .error .OutOfGrid
  else .ok ()

/-- The flat index `(x * rows + y) as usize` used by `get`, `set` and
`get_mut` (the cast is performed by `Int.toNat` at each use site, where the
bounds check guarantees nonnegativity). -/
def Grid.cellIndex (g : Grid T) (p : Int × Int) : Int := p.1 * g.rows + p.2

/-- Source `Grid::set`: bounds-check, then store through
`if let Some(cell) = self.cells.get_mut((x * rows + y) as usize)`. -/
def Grid.set (self : Grid T) (dst : Int × Int) (value : T) :
    Except DasGridError Unit × Grid T :=
  match self.check_grid_bounds dst with
  | .error e => (.error e, self)
  | .ok _ =>
      (.ok (), { self with
                   cells := self.cells.set (dst.1 * self.rows + dst.2).toNat value })

/-- Source `Grid::get`: bounds-check, then
`self.cells.get((x * rows + y) as usize).ok_or(DasGridError::ValueNotFound)`. -/
def Grid.get (self : Grid T) (src : Int × Int) : Except DasGridError T :=
  match self.check_grid_bounds src with
  | .error e => .error e
  | .ok _ =>
      match self.cells[(src.1 * self.rows + src.2).toNat]? with
      | some v => .ok v
      | none => .error .ValueNotFound

/-- The value read through `Grid::get_mut` (same body as `get`: bounds-check,
then `self.cells.get_mut(..).ok_or(DasGridError::ValueNotFound)`). -/
def Grid.get_mut_read (self : Grid T) (src : Int × Int) : Except DasGridError T :=
  match self.check_grid_bounds src with
  | .error e => .error e
  | .ok _ =>
      match self.cells[(src.1 * self.rows + src.2).toNat]? with
      | some v => .ok v
      | none => .error .ValueNotFound

/-- Source `Grid::mov`: both bounds checks, then `*self.get_mut(src).unwrap()`
(the `unwrap` panic is the `none` case), then `set src default`,
then `set dest prev`. -/
def Grid.mov (self : Grid T) (src dest : Int × Int) :
    Option (Except DasGridError Unit × Grid T) :=
  match self.check_grid_bounds src with
  | .error e => some (.error e, self)
  | .ok _ =>
  match self.check_grid_bounds dest with
  | .error e => some (.error e, self)
  | .ok _ =>
  match self.get_mut_read src with
  | .error _ => none
  | .ok prev =>
  match self.set src self.default_value with
  | (.error e, g1) => some (.error e, g1)
  | (.ok _, g1) =>
  match g1.set dest prev with
  | (.error e, g2) => some (.error e, g2)
  | (.ok _, g2) => some (.ok (), g2)

/-- The destination `(x + xx, y + yy)` computed by `Grid::mov_to` from the
source coordinate and the direction offset. -/
def movDest (src : Int × Int) (d : MoveDirection) : Int × Int :=
  (src.1 + d.offset.1, src.2 + d.offset.2)

/-- Source `Grid::mov_to`: bounds-check the source, add the direction offset,
bounds-check the destination, then `get_mut(src)?`, `set src default`,
`set dest prev`, returning the destination coordinate on success. -/
def Grid.mov_to (self : Grid T) (src : Int × Int) (dst_direction : MoveDirection) :
    Except DasGridError (Int × Int) × Grid T :=
  match self.check_grid_bounds src with
  | .error e => (.error e, self)
  | .ok _ =>
  let dest := movDest src dst_direction
  match self.check_grid_bounds dest with
  | .error e => (.error e, self)
  | .ok _ =>
  match self.get_mut_read src with
  | .error e => (.error e, self)
  | .ok prev =>
  match self.set src self.default_value with
  | (.error e, g1) => (.error e, g1)
  | (.ok _, g1) =>
  match g1.set dest prev with
  | (.error e, g2) => (.error e, g2)
  | (.ok _, g2) => (.ok dest, g2)

/-- The stateful coordinate generator shared by the `enumerate*` family in
`src/grid.rs`: walking the cell indices `idx`, with mutable `x`, `y` reset by
`if idx as i32 % rows == 0 && idx > 1 { y = 0; x += 1 }`. -/
def enumFrom (rows : Int) : Nat → Nat → Int → Int → List (Int × Int)
  | 0, _, _, _ => []
  | n + 1, idx, x, y =>
      if (idx : Int) % rows = 0 ∧ 1 < idx then
        (x + 1, 0) :: enumFrom rows n (idx + 1) (x + 1) 1
      else
        (x, y) :: enumFrom rows n (idx + 1) x (y + 1)

/-- Source `Grid::enumerate`. -/
def Grid.enumerate (g : Grid T) : List (Int × Int) :=
  enumFrom g.rows g.cells.length 0 0 0

/-- The value-carrying variant of the generator, for
`Grid::enumerate_with_value` (same coordinate bookkeeping, paired with the
cell values in backing order). -/
def enumWVFrom (rows : Int) : List T → Nat → Int → Int → List (Int × Int × T)
  | [], _, _, _ => []
  | v :: rest, idx, x, y =>
      if (idx : Int) % rows = 0 ∧ 1 < idx then
        (x + 1, 0, v) :: enumWVFrom rows rest (idx + 1) (x + 1) 1
      else
        (x, y, v) :: enumWVFrom rows rest (idx + 1) x (y + 1)

/-- Source `Grid::enumerate_with_value`. -/
def Grid.enumerate_with_value (g : Grid T) : List (Int × Int × T) :=
  enumWVFrom g.rows g.cells 0 0 0

/-- The loop body of `Grid::get_subgrid`: for each enumerated sub-grid
coordinate, read the parent at `(src.0 + x, src.1 + y)` and, when that
succeeds, store into the sub-grid, ignoring the store's result. -/
def getSubLoop (self : Grid T) (src : Int × Int) :
    List (Int × Int) → Grid T → Grid T
  | [], sub => sub
  | (x, y) :: rest, sub =>
      match self.get (src.1 + x, src.2 + y) with
      | .ok subv => getSubLoop self src rest (sub.set (x, y) subv).2
      | .error _ => getSubLoop self src rest sub

/-- Source `Grid::get_subgrid`: bounds-check the origin, allocate the sub-grid via
`Grid::new` (whose panic is the `none` case), check overflow, then copy the
region cell by cell. -/
def Grid.get_subgrid (self : Grid T) (src : Int × Int) (rows cols : Int) :
    Option (Except DasGridError (Grid T)) :=
  match self.check_grid_bounds src with
  | .error e => some (.error e)
  | .ok _ =>
  match Grid.new (rows, cols) self.cell_size self.default_value with
  | none => none
  | some sub0 =>
  match self.check_grid_overflow sub0 with
  | .error e => some (.error e)
  | .ok _ => some (.ok (getSubLoop self src sub0.enumerate sub0))

/-- The loop body of `Grid::stamp_subgrid`: for each `(x, y, _)` of the
sub-grid enumeration, re-read the sub-grid and, when that succeeds, store at
`dest = (yy + y, xx + x)` (sic: the components are swapped in the source),
ignoring the store's result. -/
def stampLoop (sub : Grid T) (xx yy : Int) :
    List (Int × Int × T) → Grid T → Grid T
  | [], g => g
  | (x, y, _) :: rest, g =>
      match sub.get (x, y) with
      | .ok subv => stampLoop sub xx yy rest (g.set (yy + y, xx + x) subv).2
      | .error _ => stampLoop sub xx yy rest g

/-- Source `Grid::stamp_subgrid`: overflow check, bounds check of the anchor, then
the stamping loop (whose individual stores may silently "bleed"). -/
def Grid.stamp_subgrid (self : Grid T) (dst : Int × Int) (sub_grid : Grid T) :
    Except DasGridError Unit × Grid T :=
  match self.check_grid_overflow sub_grid with
  | .error e => (.error e, self)
  | .ok _ =>
  match self.check_grid_bounds dst with
  | .error e => (.error e, self)
  | .ok _ => (.ok (), stampLoop sub_grid dst.1 dst.2 sub_grid.enumerate_with_value self)

/-- Sequential evaluation of a rule list, short-circuiting on the first
failure (the `for rule in rules.iter() { rule(dest, destv)?; }` loop). -/
def runRules (rules : List ((Int × Int) → T → Except DasGridError Unit))
    (dest : Int × Int) (v : T) : Except DasGridError Unit :=
  match rules with
  | [] => .ok ()
  | r :: rest =>
      match r dest v with
      | .error e => .error e
      | .ok _ => runRules rest dest v

/-- The loop body of `Grid::stamp_subgrid_with_rules`: for each `(x, y, _)`,
re-read the sub-grid; on success compute `dest = (xx + x, yy + y)`, read the
destination value with `?` (propagating its error), run all rules with `?`
(propagating the first rule failure), then store, ignoring the store's
result. -/
def stampRulesGo (sub : Grid T) (xx yy : Int)
    (rules : List ((Int × Int) → T → Except DasGridError Unit)) :
    List (Int × Int × T) → Grid T → Except DasGridError Unit × Grid T
  | [], g => (.ok (), g)
  | (x, y, _) :: rest, g =>
      match sub.get (x, y) with
      | .error _ => stampRulesGo sub xx yy rules rest g
      | .ok subv =>
          match g.get (xx + x, yy + y) with
          | .error e => (.error e, g)
          | .ok destv =>
              match runRules rules (xx + x, yy + y) destv with
              | .error e => (.error e, g)
              | .ok _ => stampRulesGo sub xx yy rules rest (g.set (xx + x, yy + y) subv).2

/-- Source `Grid::stamp_subgrid_with_rules`: overflow check, bounds check of the
anchor, then the rule-guarded stamping loop. -/
def Grid.stamp_subgrid_with_rules (self : Grid T) (dst : Int × Int) (sub_grid : Grid T)
    (rules : List ((Int × Int) → T → Except DasGridError Unit)) :
    Except DasGridError Unit × Grid T :=
  match self.check_grid_overflow sub_grid with
  | .error e => (.error e, self)
  | .ok _ =>
  match self.check_grid_bounds dst with
  | .error e => (.error e, self)
  | .ok _ => stampRulesGo sub_grid dst.1 dst.2 rules sub_grid.enumerate_with_value self

/-- Well-formedness of a constructed grid: positive dimensions, a product
representable in `i32`, and the backing vector of length `rows * cols`. -/
def Grid.WF (g : Grid T) : Prop :=
  0 < g.rows ∧ 0 < g.cols ∧ g.rows * g.cols ≤ 2147483647 ∧
    g.cells.length = (g.rows * g.cols).toNat

instance (g : Grid T) : Decidable g.WF := by
  unfold Grid.WF; exact inferInstance

/-- Grids built by `Grid::new` with positive, `i32`-representable dimensions
are well-formed. -/
theorem new_wf (rows cols : Int) (cs : Rat × Rat) (d : T) (g : Grid T)
    (hr : 0 < rows) (hc : 0 < cols) (hmax : rows * cols ≤ 2147483647)
    (h : Grid.new (rows, cols) cs d = some g) : g.WF := by
  unfold Grid.new at h
  simp only at h
  split at h
  · exact absurd h (by simp)
  · cases h.symm
    refine ⟨hr, hc, hmax, ?_⟩
    simp [Grid.WF, Grid.rows, Grid.cols]

/-- Unfolding characterisation of a successful bounds check. -/
theorem check_grid_bounds_ok_iff (g : Grid T) (p : Int × Int) :
    g.check_grid_bounds p = .ok () ↔
      0 ≤ p.1 ∧ p.1 < g.cols ∧ 0 ≤ p.2 ∧ p.2 < g.rows := by
  unfold Grid.check_grid_bounds
  split
  · constructor
    · intro h; exact absurd h (by simp)
    · omega
  · split
    · constructor
      · intro h; exact absurd h (by simp)
      · omega
    · constructor
      · intro _; omega
      · intro _; rfl

/-- A failed bounds check always reports `OutOfGrid`. -/
theorem check_grid_bounds_not_ok (g : Grid T) (p : Int × Int)
    (h : g.check_grid_bounds p ≠ .ok ()) :
    g.check_grid_bounds p = .error .OutOfGrid := by
  unfold Grid.check_grid_bounds at h ⊢
  by_cases h1 : p.1 < 0 ∨ p.1 ≥ g.cols
  · simp [h1]
  · by_cases h2 : p.2 < 0 ∨ p.2 ≥ g.rows
    · simp [h1, h2]
    · simp [h1, h2] at h

/-- In a well-formed grid the flat index of an in-bounds coordinate is
nonnegative, below `rows * cols`, and inside the backing vector. -/
theorem cellIndex_bounds (g : Grid T) (hWF : g.WF) {p : Int × Int}
    (hb : g.check_grid_bounds p = .ok ()) :
    0 ≤ g.cellIndex p ∧ g.cellIndex p < g.rows * g.cols ∧
      (g.cellIndex p).toNat < g.cells.length := by
  obtain ⟨hr, hc, _, hlen⟩ := hWF
  obtain ⟨hx0, hxc, hy0, hyr⟩ := (check_grid_bounds_ok_iff g p).mp hb
  have h0 : 0 ≤ g.cellIndex p := by
    have := mul_nonneg hx0 (le_of_lt hr)
    unfold Grid.cellIndex; omega
  have h1 : g.cellIndex p < g.rows * g.cols := by
    have hstep : (p.1 + 1) * g.rows ≤ g.cols * g.rows :=
      mul_le_mul_of_nonneg_right (by omega) (le_of_lt hr)
    have hexp : (p.1 + 1) * g.rows = p.1 * g.rows + g.rows := by ring
    have hcomm : g.cols * g.rows = g.rows * g.cols := mul_comm _ _
    unfold Grid.cellIndex; omega
  exact ⟨h0, h1, by omega⟩

/-- Distinct in-bounds coordinates have distinct flat indices. -/
theorem cellIndex_inj (g : Grid T) (hr : 0 < g.rows) {p q : Int × Int}
    (hp : g.check_grid_bounds p = .ok ()) (hq : g.check_grid_bounds q = .ok ())
    (h : g.cellIndex p = g.cellIndex q) : p = q := by
  obtain ⟨hx0, hxc, hy0, hyr⟩ := (check_grid_bounds_ok_iff g p).mp hp
  obtain ⟨hx0q, hxcq, hy0q, hyrq⟩ := (check_grid_bounds_ok_iff g q).mp hq
  unfold Grid.cellIndex at h
  have hmodp : (p.1 * g.rows + p.2) % g.rows = p.2 := by
    rw [add_comm, Int.add_mul_emod_self]
    exact Int.emod_eq_of_lt hy0 hyr
  have hmodq : (q.1 * g.rows + q.2) % g.rows = q.2 := by
    rw [add_comm, Int.add_mul_emod_self]
    exact Int.emod_eq_of_lt hy0q hyrq
  have hy : p.2 = q.2 := by rw [← hmodp, ← hmodq, h]
  have hx : p.1 = q.1 := by
    have hmul : p.1 * g.rows = q.1 * g.rows := by omega
    exact mul_right_cancel₀ (by omega) hmul
  exact Prod.ext hx hy

/-- A cells-only update does not change the bounds check. -/
theorem check_grid_bounds_cells (g : Grid T) (c : List T) (p : Int × Int) :
    ({ g with cells := c } : Grid T).check_grid_bounds p = g.check_grid_bounds p := rfl

/-- Successful `set` updates exactly the flat cell index. -/
theorem set_of_ok (g : Grid T) (p : Int × Int) (v : T)
    (hb : g.check_grid_bounds p = .ok ()) :
    g.set p v = (.ok (), { g with cells := g.cells.set (g.cellIndex p).toNat v }) := by
  unfold Grid.set
  rw [hb]
  rfl

/-- Function `get` reads exactly the flat cell index once the bounds check passed. -/
theorem get_of_ok (g : Grid T) (p : Int × Int)
    (hb : g.check_grid_bounds p = .ok ()) :
    g.get p = match g.cells[(g.cellIndex p).toNat]? with
              | some v => .ok v
              | none => .error .ValueNotFound := by
  unfold Grid.get
  rw [hb]
  rfl

/-- Function `get_mut` reads the same cell as `get`. -/
theorem get_mut_read_eq_get (g : Grid T) (p : Int × Int) :
    g.get_mut_read p = g.get p := rfl

/-- Claim C1: on any well-formed grid (positive dimensions, backing vector of
length `rows * cols`), for any coordinate accepted by the bounds check,
`set(p, v)` followed by `get(p)` returns `Ok v`. -/
theorem C1_set_then_get (g : Grid T) (hWF : g.WF) (p : Int × Int) (v : T)
    (hb : g.check_grid_bounds p = .ok ()) :
    ((g.set p v).2).get p = .ok v := by
  obtain ⟨-, -, hidx⟩ := cellIndex_bounds g hWF hb
  rw [set_of_ok g p v hb]
  have hb2 : ({ g with cells := g.cells.set (g.cellIndex p).toNat v } : Grid T).check_grid_bounds p
      = .ok () := by rw [check_grid_bounds_cells]; exact hb
  rw [get_of_ok _ p hb2]
  have hidx2 : (g.cellIndex p).toNat < (g.cells.set (g.cellIndex p).toNat v).length := by
    simpa using hidx
  have : ({ g with cells := g.cells.set (g.cellIndex p).toNat v } : Grid T).cellIndex p
      = g.cellIndex p := rfl
  rw [this]
  simp [List.getElem?_set_eq_of_lt v hidx]

/-- The bounds check can only succeed or report `OutOfGrid`. -/
theorem check_grid_bounds_cases (g : Grid T) (p : Int × Int) :
    g.check_grid_bounds p = .ok () ∨ g.check_grid_bounds p = .error .OutOfGrid := by
  by_cases h : g.check_grid_bounds p = .ok ()
  · exact .inl h
  · exact .inr (check_grid_bounds_not_ok g p h)

/-- Claim C2: on any well-formed grid, the flat index map used by `get`, `set`
and `get_mut` is a bijection between the set of coordinates accepted by the
bounds check and the index range `[0, rows*cols)`; every accepted coordinate
addresses an index inside the backing vector; and `set` stores exactly
through this map. -/
theorem C2_index_bijection (g : Grid T) (hWF : g.WF) :
    Set.BijOn (fun p => g.cellIndex p)
        {p : Int × Int | g.check_grid_bounds p = .ok ()}
        (Set.Ico 0 (g.rows * g.cols))
    ∧ (∀ p, g.check_grid_bounds p = .ok () → (g.cellIndex p).toNat < g.cells.length)
    ∧ (∀ p v, g.check_grid_bounds p = .ok () →
        ((g.set p v).2).cells = g.cells.set (g.cellIndex p).toNat v) := by
  have hr : 0 < g.rows := hWF.1
  refine ⟨⟨?_, ?_, ?_⟩, ?_, ?_⟩
  · intro p hp
    obtain ⟨h0, h1, -⟩ := cellIndex_bounds g hWF hp
    exact ⟨h0, h1⟩
  · intro p hp q hq h
    exact cellIndex_inj g hr hp hq h
  · intro n hn
    obtain ⟨hn0, hn1⟩ := hn
    refine ⟨(n / g.rows, n % g.rows), ?_, ?_⟩
    · show g.check_grid_bounds _ = .ok ()
      rw [check_grid_bounds_ok_iff]
      refine ⟨Int.ediv_nonneg hn0 (le_of_lt hr), ?_,
        Int.emod_nonneg n (ne_of_gt hr), Int.emod_lt_of_pos n hr⟩
      rw [Int.ediv_lt_iff_lt_mul hr]
      rw [mul_comm] at hn1
      exact hn1
    · show g.cellIndex _ = n
      unfold Grid.cellIndex
      have h := Int.ediv_add_emod n g.rows
      rw [mul_comm] at h
      exact h
  · intro p hp
    exact (cellIndex_bounds g hWF hp).2.2
  · intro p v hp
    rw [set_of_ok g p v hp]

/-- Witness for C2 at a concrete well-formed 2 x 3 grid. -/
theorem C2_witness :
    (⟨(2, 3), (1, 1), 0, [0, 0, 0, 0, 0, 0]⟩ : Grid Int).WF
    ∧ (Set.BijOn (fun p => (⟨(2, 3), (1, 1), 0, [0, 0, 0, 0, 0, 0]⟩ : Grid Int).cellIndex p)
        {p : Int × Int |
          (⟨(2, 3), (1, 1), 0, [0, 0, 0, 0, 0, 0]⟩ : Grid Int).check_grid_bounds p = .ok ()}
        (Set.Ico 0 ((⟨(2, 3), (1, 1), 0, [0, 0, 0, 0, 0, 0]⟩ : Grid Int).rows *
          (⟨(2, 3), (1, 1), 0, [0, 0, 0, 0, 0, 0]⟩ : Grid Int).cols))
      ∧ (∀ p, (⟨(2, 3), (1, 1), 0, [0, 0, 0, 0, 0, 0]⟩ : Grid Int).check_grid_bounds p = .ok () →
          ((⟨(2, 3), (1, 1), 0, [0, 0, 0, 0, 0, 0]⟩ : Grid Int).cellIndex p).toNat <
            (⟨(2, 3), (1, 1), 0, [0, 0, 0, 0, 0, 0]⟩ : Grid Int).cells.length)
      ∧ (∀ p v,
          (⟨(2, 3), (1, 1), 0, [0, 0, 0, 0, 0, 0]⟩ : Grid Int).check_grid_bounds p = .ok () →
          (((⟨(2, 3), (1, 1), 0, [0, 0, 0, 0, 0, 0]⟩ : Grid Int).set p v).2).cells =
            (⟨(2, 3), (1, 1), 0, [0, 0, 0, 0, 0, 0]⟩ : Grid Int).cells.set
              ((⟨(2, 3), (1, 1), 0, [0, 0, 0, 0, 0, 0]⟩ : Grid Int).cellIndex p).toNat v)) :=
  ⟨by decide, C2_index_bijection (⟨(2, 3), (1, 1), 0, [0, 0, 0, 0, 0, 0]⟩ : Grid Int) (by decide)⟩

/-- Claim C3 counterexample: on the grid with `(rows, cols) = (2, 3)` the
coordinate `(2, 0)` lies outside the rectangle `[0, rows) x [0, cols)` named
by the claim (its first component is at `rows`), yet `get` returns `Ok` and
`set` returns `Ok` and mutates a cell: the code checks the first component
against `cols`, not `rows`. -/
theorem C3_counterexample :
    (Grid.new (2, 3) (1, 1) (0 : Int) = some ⟨(2, 3), (1, 1), 0, [0, 0, 0, 0, 0, 0]⟩)
    ∧ (⟨(2, 3), (1, 1), 0, [0, 0, 0, 0, 0, 0]⟩ : Grid Int).rows = 2
    ∧ ¬((0 : Int) ≤ 2 ∧ (2 : Int) < 2)
    ∧ (⟨(2, 3), (1, 1), 0, [0, 0, 0, 0, 0, 0]⟩ : Grid Int).get (2, 0) = .ok 0
    ∧ ((⟨(2, 3), (1, 1), 0, [0, 0, 0, 0, 0, 0]⟩ : Grid Int).set (2, 0) 9).1 = .ok ()
    ∧ ((⟨(2, 3), (1, 1), 0, [0, 0, 0, 0, 0, 0]⟩ : Grid Int).set (2, 0) 9).2.cells
        = [0, 0, 0, 0, 9, 0] := by
  decide

/-- Claim C3 as amended: for every coordinate outside `[0, cols) x [0, rows)`
(first component checked against `cols`, second against `rows`), `get`
returns the `OutOfGrid` error and `set` returns the `OutOfGrid` error leaving
the grid unchanged. -/
theorem C3_amended (g : Grid T) (p : Int × Int) (v : T)
    (h : p.1 < 0 ∨ p.1 ≥ g.cols ∨ p.2 < 0 ∨ p.2 ≥ g.rows) :
    g.get p = .error .OutOfGrid ∧ g.set p v = (.error .OutOfGrid, g) := by
  have hb : g.check_grid_bounds p = .error .OutOfGrid := by
    apply check_grid_bounds_not_ok
    intro hok
    rw [check_grid_bounds_ok_iff] at hok
    omega
  constructor
  · unfold Grid.get
    rw [hb]
  · unfold Grid.set
    rw [hb]

/-- Witness for the amended C3 at the 2 x 3 grid and `p = (0, 2)`
(second component at `rows`). -/
theorem C3_amended_witness :
    ((0 : Int) < 0 ∨ (0 : Int) ≥ (⟨(2, 3), (1, 1), 0, [0, 0, 0, 0, 0, 0]⟩ : Grid Int).cols
      ∨ (2 : Int) < 0 ∨ (2 : Int) ≥ (⟨(2, 3), (1, 1), 0, [0, 0, 0, 0, 0, 0]⟩ : Grid Int).rows)
    ∧ ((⟨(2, 3), (1, 1), 0, [0, 0, 0, 0, 0, 0]⟩ : Grid Int).get (0, 2) = .error .OutOfGrid
      ∧ (⟨(2, 3), (1, 1), 0, [0, 0, 0, 0, 0, 0]⟩ : Grid Int).set (0, 2) 9 =
          (.error .OutOfGrid, (⟨(2, 3), (1, 1), 0, [0, 0, 0, 0, 0, 0]⟩ : Grid Int))) :=
  ⟨by decide,
   C3_amended (⟨(2, 3), (1, 1), 0, [0, 0, 0, 0, 0, 0]⟩ : Grid Int) (0, 2) 9 (by decide)⟩

/-- Setting a list entry to the value it already holds is the identity. -/
theorem set_of_getElem_eq {l : List T} {n : Nat} {x : T} (h : l[n]? = some x) :
    l.set n x = l := by
  apply List.ext_getElem?
  intro i
  by_cases hi : n = i
  · subst hi
    have hlt : n < l.length := by
      cases hl : l[n]? with
      | none => rw [hl] at h; exact absurd h (by simp)
      | some w => exact (List.getElem?_eq_some.mp hl).1
    rw [List.getElem?_set_self hlt, h]
  · rw [List.getElem?_set_ne hi]

/-- Reading an `Ok` value through `get` pins down the backing-vector entry. -/
theorem get_ok_imp (g : Grid T) {p : Int × Int} {v : T}
    (hb : g.check_grid_bounds p = .ok ()) (h : g.get p = .ok v) :
    g.cells[(g.cellIndex p).toNat]? = some v := by
  rw [get_of_ok g p hb] at h
  cases hc : g.cells[(g.cellIndex p).toNat]? with
  | none => rw [hc] at h; exact absurd h (by simp)
  | some w => rw [hc] at h; injection h with h; rw [h]

/-- Claim C5: a successful `mov(src, dst)` between in-bounds coordinates of a
well-formed grid leaves the old `src` value at `dst`; when `src ≠ dst` the
`src` cell now holds the default value, and when `src = dst` the whole grid
is unchanged (no self-erasure). -/
theorem C5_mov_semantics (g : Grid T) (hWF : g.WF) (src dst : Int × Int) (v : T)
    (hs : g.check_grid_bounds src = .ok ()) (hd : g.check_grid_bounds dst = .ok ())
    (hv : g.get src = .ok v) :
    ∃ g1, g.mov src dst = some (.ok (), g1)
      ∧ g1.get dst = .ok v
      ∧ (src ≠ dst → g1.get src = .ok g.default_value)
      ∧ (src = dst → ∀ q, g1.get q = g.get q) := by
  obtain ⟨-, -, hS⟩ := cellIndex_bounds g hWF hs
  obtain ⟨-, -, hD⟩ := cellIndex_bounds g hWF hd
  refine ⟨⟨g.frame_size, g.cell_size, g.default_value,
    (g.cells.set (g.cellIndex src).toNat g.default_value).set (g.cellIndex dst).toNat v⟩,
    ?_, ?_, ?_, ?_⟩
  · unfold Grid.mov
    rw [hs, hd, get_mut_read_eq_get, hv]
    dsimp only
    rw [set_of_ok g src g.default_value hs]
    dsimp only
    have hdA : ({ g with cells := g.cells.set (g.cellIndex src).toNat g.default_value } :
        Grid T).check_grid_bounds dst = .ok () := hd
    rw [set_of_ok _ dst v hdA]
    rfl
  · have hb2 : (⟨g.frame_size, g.cell_size, g.default_value,
        (g.cells.set (g.cellIndex src).toNat g.default_value).set (g.cellIndex dst).toNat v⟩ :
        Grid T).check_grid_bounds dst = .ok () := hd
    rw [get_of_ok _ dst hb2]
    have hlt : (g.cellIndex dst).toNat <
        (g.cells.set (g.cellIndex src).toNat g.default_value).length := by simpa using hD
    show (match ((g.cells.set (g.cellIndex src).toNat g.default_value).set
        (g.cellIndex dst).toNat v)[(g.cellIndex dst).toNat]? with
      | some w => (.ok w : Except DasGridError T)
      | none => .error .ValueNotFound) = .ok v
    rw [List.getElem?_set_self hlt]
  · intro hne
    have hne' : (g.cellIndex dst).toNat ≠ (g.cellIndex src).toNat := by
      intro h
      apply hne
      obtain ⟨h0s, -, -⟩ := cellIndex_bounds g hWF hs
      obtain ⟨h0d, -, -⟩ := cellIndex_bounds g hWF hd
      exact cellIndex_inj g hWF.1 hs hd (by omega)
    have hb2 : (⟨g.frame_size, g.cell_size, g.default_value,
        (g.cells.set (g.cellIndex src).toNat g.default_value).set (g.cellIndex dst).toNat v⟩ :
        Grid T).check_grid_bounds src = .ok () := hs
    rw [get_of_ok _ src hb2]
    show (match ((g.cells.set (g.cellIndex src).toNat g.default_value).set
        (g.cellIndex dst).toNat v)[(g.cellIndex src).toNat]? with
      | some w => (.ok w : Except DasGridError T)
      | none => .error .ValueNotFound) = .ok g.default_value
    rw [List.getElem?_set_ne hne', List.getElem?_set_self hS]
  · intro heq q
    subst heq
    have hcells : (g.cells.set (g.cellIndex src).toNat g.default_value).set
        (g.cellIndex src).toNat v = g.cells := by
      rw [List.set_set]
      exact set_of_getElem_eq (get_ok_imp g hs hv)
    have hgeq : (⟨g.frame_size, g.cell_size, g.default_value,
        (g.cells.set (g.cellIndex src).toNat g.default_value).set
          (g.cellIndex src).toNat v⟩ : Grid T) = g := by
      rw [hcells]
    rw [hgeq]

/-- Witness for C5: moving the value 1 from `(0, 0)` to `(1, 1)` on a
concrete 2 x 2 grid. -/
theorem C5_witness :
    (⟨(2, 2), (1, 1), 0, [1, 2, 3, 4]⟩ : Grid Int).WF
    ∧ ∃ g1, (⟨(2, 2), (1, 1), 0, [1, 2, 3, 4]⟩ : Grid Int).mov (0, 0) (1, 1) =
          some (.ok (), g1)
        ∧ g1.get (1, 1) = .ok 1
        ∧ ((0, 0) ≠ ((1, 1) : Int × Int) → g1.get (0, 0) = .ok 0)
        ∧ ((0, 0) = ((1, 1) : Int × Int) → ∀ q, g1.get q =
            (⟨(2, 2), (1, 1), 0, [1, 2, 3, 4]⟩ : Grid Int).get q) :=
  ⟨by decide,
   C5_mov_semantics (⟨(2, 2), (1, 1), 0, [1, 2, 3, 4]⟩ : Grid Int) (by decide) (0, 0) (1, 1) 1
     (by decide) (by decide) (by decide)⟩

/-- Claim C4: whenever `mov` (resp. `mov_to` with its computed destination)
fails a bounds check on either coordinate, it returns the `OutOfGrid` error
and the grid is completely unchanged: both checks run before any write.  The
two operations are covered by independent implications, so each applies to
every pair of coordinates (resp. every source and direction) on its own. -/
theorem C4_no_mutation_on_oob (g : Grid T) (src dst : Int × Int) (d : MoveDirection) :
    (g.check_grid_bounds src ≠ .ok () ∨ g.check_grid_bounds dst ≠ .ok () →
      g.mov src dst = some (.error .OutOfGrid, g))
    ∧ (g.check_grid_bounds src ≠ .ok () ∨ g.check_grid_bounds (movDest src d) ≠ .ok () →
      g.mov_to src d = (.error .OutOfGrid, g)) := by
  constructor
  · intro h1
    rcases check_grid_bounds_cases g src with hs | hs
    · have hd : g.check_grid_bounds dst ≠ .ok () := by
        rcases h1 with h | h
        · exact absurd hs h
        · exact h
      unfold Grid.mov
      rw [hs, check_grid_bounds_not_ok g dst hd]
    · unfold Grid.mov
      rw [hs]
  · intro h2
    rcases check_grid_bounds_cases g src with hs | hs
    · have hd : g.check_grid_bounds (movDest src d) ≠ .ok () := by
        rcases h2 with h | h
        · exact absurd hs h
        · exact h
      simp only [Grid.mov_to]
      rw [hs, check_grid_bounds_not_ok g (movDest src d) hd]
    · simp only [Grid.mov_to]
      rw [hs]

/-- Witness for C4 at a 3 x 3 grid: the `mov` half at the interior in-bounds
source `(1, 1)` with out-of-bounds destination `(9, 9)`, and the `mov_to`
half at `(0, 0)` moving `Up`, whose computed destination `(0, -1)` is out of
bounds. -/
theorem C4_witness :
    (⟨(3, 3), (1, 1), 0, [0, 0, 0, 0, 0, 0, 0, 0, 0]⟩ : Grid Int).mov (1, 1) (9, 9) =
      some (.error .OutOfGrid, (⟨(3, 3), (1, 1), 0, [0, 0, 0, 0, 0, 0, 0, 0, 0]⟩ : Grid Int))
    ∧ (⟨(3, 3), (1, 1), 0, [0, 0, 0, 0, 0, 0, 0, 0, 0]⟩ : Grid Int).mov_to (0, 0) .Up =
      (.error .OutOfGrid, (⟨(3, 3), (1, 1), 0, [0, 0, 0, 0, 0, 0, 0, 0, 0]⟩ : Grid Int)) :=
  ⟨(C4_no_mutation_on_oob (⟨(3, 3), (1, 1), 0, [0, 0, 0, 0, 0, 0, 0, 0, 0]⟩ : Grid Int)
      (1, 1) (9, 9) .Up).1 (.inr (by decide)),
   (C4_no_mutation_on_oob (⟨(3, 3), (1, 1), 0, [0, 0, 0, 0, 0, 0, 0, 0, 0]⟩ : Grid Int)
      (0, 0) (9, 9) .Up).2 (.inr (by decide))⟩

/-- Claim C6 (code bug): the `get_subgrid` / `stamp_subgrid` round trip does
not restore the region.  On the 2 x 2 parent built from `[1, 2, 3, 4]`,
`get_subgrid((0,0), 2, 2)` returns a faithful copy, but stamping it back at
the same origin transposes it — `stamp_subgrid` writes each sub-cell `(x, y)`
to `(dst.1 + y, dst.0 + x)`, unlike `get_subgrid` and
`stamp_subgrid_with_rules`, which use `(dst.0 + x, dst.1 + y)` — leaving the
cells `[1, 3, 2, 4]` instead of `[1, 2, 3, 4]`. -/
theorem C6_roundtrip_violation :
    Grid.new_from_vector (2, 2) (1, 1) ([1, 2, 3, 4] : List Int) =
      some ⟨(2, 2), (1, 1), 1, [1, 2, 3, 4]⟩
    ∧ (⟨(2, 2), (1, 1), 1, [1, 2, 3, 4]⟩ : Grid Int).get_subgrid (0, 0) 2 2 =
        some (.ok ⟨(2, 2), (1, 1), 1, [1, 2, 3, 4]⟩)
    ∧ (⟨(2, 2), (1, 1), 1, [1, 2, 3, 4]⟩ : Grid Int).stamp_subgrid (0, 0)
        ⟨(2, 2), (1, 1), 1, [1, 2, 3, 4]⟩ =
        (.ok (), ⟨(2, 2), (1, 1), 1, [1, 3, 2, 4]⟩)
    ∧ ([1, 3, 2, 4] : List Int) ≠ [1, 2, 3, 4] := by
  decide

/-- Claim C8 counterexample: on the 2 x 2 grid with the value 1 at `(0, 1)`,
moving by direction `Right` from `(0, 1)` does not fail: it succeeds and
returns the destination `(1, 1)` (the source's `MOVE_RIGHT` is `(1, 0)` and
the first component is checked against `cols`). -/
theorem C8_counterexample :
    ((⟨(2, 2), (1, 1), 0, [0, 1, 0, 0]⟩ : Grid Int).mov_to (0, 1) .Right).1 =
      .ok (1, 1) := by
  decide

/-- Claim C8 as amended: on the 2 x 2 grid of zeros, after `set((0,1), 1)`,
moving `Right` from `(0, 1)` succeeds with destination `(1, 1)`, after which
cell `(0, 1)` holds 0 and cell `(1, 1)` holds 1; moving `Down` from `(0, 1)`
fails with `OutOfGrid` and leaves the grid unchanged (the direction roles are
swapped relative to the claim). -/
theorem C8_amended :
    Grid.new (2, 2) (1, 1) (0 : Int) = some ⟨(2, 2), (1, 1), 0, [0, 0, 0, 0]⟩
    ∧ (⟨(2, 2), (1, 1), 0, [0, 0, 0, 0]⟩ : Grid Int).set (0, 1) 1 =
        (.ok (), ⟨(2, 2), (1, 1), 0, [0, 1, 0, 0]⟩)
    ∧ (⟨(2, 2), (1, 1), 0, [0, 1, 0, 0]⟩ : Grid Int).mov_to (0, 1) .Right =
        (.ok (1, 1), ⟨(2, 2), (1, 1), 0, [0, 0, 0, 1]⟩)
    ∧ (⟨(2, 2), (1, 1), 0, [0, 0, 0, 1]⟩ : Grid Int).get (0, 1) = .ok 0
    ∧ (⟨(2, 2), (1, 1), 0, [0, 0, 0, 1]⟩ : Grid Int).get (1, 1) = .ok 1
    ∧ (⟨(2, 2), (1, 1), 0, [0, 1, 0, 0]⟩ : Grid Int).mov_to (0, 1) .Down =
        (.error .OutOfGrid, ⟨(2, 2), (1, 1), 0, [0, 1, 0, 0]⟩) := by
  decide

/-- Claim C10: `new_from_vector` panics (modelled by `none`) on every
odd-length vector, regardless of whether the length equals `rows * cols`. -/
theorem C10_odd_vector_panics (frame_size : Int × Int) (cs : Rat × Rat) (v : List T)
    (h : v.length % 2 = 1) :
    Grid.new_from_vector frame_size cs v = none := by
  unfold Grid.new_from_vector
  have h2 : ¬v.length % 2 = 0 := by omega
  simp [h2]

/-- Witness for C10: a 3 x 3 grid can never be built from its 9-element
vector, even though `3 * 3` equals the vector length. -/
theorem C10_witness :
    ([1, 2, 3, 4, 5, 6, 7, 8, 9] : List Int).length % 2 = 1
    ∧ (3 : Int) * 3 = ([1, 2, 3, 4, 5, 6, 7, 8, 9] : List Int).length
    ∧ Grid.new_from_vector (3, 3) (1, 1) ([1, 2, 3, 4, 5, 6, 7, 8, 9] : List Int) = none :=
  ⟨by decide, by decide,
   C10_odd_vector_panics (3, 3) (1, 1) ([1, 2, 3, 4, 5, 6, 7, 8, 9] : List Int) (by decide)⟩

/-- Defining equation of the rule-guarded stamping loop on the empty list. -/
theorem stampRulesGo_nil (sub : Grid T) (xx yy : Int)
    (rules : List ((Int × Int) → T → Except DasGridError Unit)) (g : Grid T) :
    stampRulesGo sub xx yy rules [] g = (.ok (), g) := rfl

/-- Defining equation of the rule-guarded stamping loop on a cons cell. -/
theorem stampRulesGo_cons (sub : Grid T) (xx yy : Int)
    (rules : List ((Int × Int) → T → Except DasGridError Unit))
    (x y : Int) (v : T) (rest : List (Int × Int × T)) (g : Grid T) :
    stampRulesGo sub xx yy rules ((x, y, v) :: rest) g =
      match sub.get (x, y) with
      | .error _ => stampRulesGo sub xx yy rules rest g
      | .ok subv =>
          match g.get (xx + x, yy + y) with
          | .error e => (.error e, g)
          | .ok destv =>
              match runRules rules (xx + x, yy + y) destv with
              | .error e => (.error e, g)
              | .ok _ => stampRulesGo sub xx yy rules rest (g.set (xx + x, yy + y) subv).2 := rfl

/-- A successfully processed stamping prefix composes: the remaining cells
are processed from the intermediate grid. -/
theorem stampRulesGo_append (sub : Grid T) (xx yy : Int)
    (rules : List ((Int × Int) → T → Except DasGridError Unit))
    (l1 l2 : List (Int × Int × T)) (g g1 : Grid T)
    (h : stampRulesGo sub xx yy rules l1 g = (.ok (), g1)) :
    stampRulesGo sub xx yy rules (l1 ++ l2) g = stampRulesGo sub xx yy rules l2 g1 := by
  induction l1 generalizing g with
  | nil =>
      rw [stampRulesGo_nil] at h
      have h2 : g = g1 := congrArg Prod.snd h
      subst h2
      rw [List.nil_append]
  | cons c tl ih =>
      obtain ⟨x, y, v⟩ := c
      rw [List.cons_append, stampRulesGo_cons]
      rw [stampRulesGo_cons] at h
      cases hsub : sub.get (x, y) with
      | error e =>
          rw [hsub] at h
          dsimp only at h ⊢
          exact ih g h
      | ok subv =>
          rw [hsub] at h
          dsimp only at h ⊢
          cases hdest : g.get (xx + x, yy + y) with
          | error e =>
              rw [hdest] at h
              dsimp only at h
              exact absurd (congrArg Prod.fst h) (by simp)
          | ok destv =>
              rw [hdest] at h
              dsimp only at h ⊢
              cases hrules : runRules rules (xx + x, yy + y) destv with
              | error e =>
                  rw [hrules] at h
                  dsimp only at h
                  exact absurd (congrArg Prod.fst h) (by simp)
              | ok u =>
                  cases u
                  rw [hrules] at h
                  dsimp only at h ⊢
                  exact ih _ h

/-- Claim C9: if, after successfully processing a prefix of the sub-grid's
enumeration (reaching intermediate grid `g1`), some rule rejects the current
value of the next destination cell, then `stamp_subgrid_with_rules` returns
exactly that rule's error with the grid state `g1`: it stops at the failing
cell, performs no further writes, and all writes made for the prefix remain
in place. -/
theorem C9_stamp_rules_stops (self sub : Grid T) (dst : Int × Int)
    (rules : List ((Int × Int) → T → Except DasGridError Unit))
    (l1 l2 : List (Int × Int × T)) (cx cy : Int) (cv sv dv : T) (e : DasGridError)
    (g1 : Grid T)
    (hov : self.check_grid_overflow sub = .ok ())
    (hb : self.check_grid_bounds dst = .ok ())
    (henum : sub.enumerate_with_value = l1 ++ (cx, cy, cv) :: l2)
    (hpre : stampRulesGo sub dst.1 dst.2 rules l1 self = (.ok (), g1))
    (hsub : sub.get (cx, cy) = .ok sv)
    (hdest : g1.get (dst.1 + cx, dst.2 + cy) = .ok dv)
    (hrule : runRules rules (dst.1 + cx, dst.2 + cy) dv = .error e) :
    self.stamp_subgrid_with_rules dst sub rules = (.error e, g1) := by
  unfold Grid.stamp_subgrid_with_rules
  rw [hov, hb]
  dsimp only
  rw [henum, stampRulesGo_append sub dst.1 dst.2 rules l1 ((cx, cy, cv) :: l2) self g1 hpre]
  rw [stampRulesGo_cons]
  rw [hsub]
  dsimp only
  rw [hdest]
  dsimp only
  rw [hrule]

/-- Witness for C9: stamping a 2 x 2 block of nines over `[5, 6, 7, 8]` with
the rule "reject 8" writes the first three cells, then stops at `(1, 1)` with
`RuleFailed`, leaving `[9, 9, 9, 8]`. -/
theorem C9_witness :
    stampRulesGo (⟨(2, 2), (1, 1), 9, [9, 9, 9, 9]⟩ : Grid Int) 0 0
        [fun _ v => if v = 8 then .error .RuleFailed else .ok ()]
        [(0, 0, 9), (0, 1, 9), (1, 0, 9)] (⟨(2, 2), (1, 1), 5, [5, 6, 7, 8]⟩ : Grid Int) =
      (.ok (), ⟨(2, 2), (1, 1), 5, [9, 9, 9, 8]⟩)
    ∧ (⟨(2, 2), (1, 1), 5, [5, 6, 7, 8]⟩ : Grid Int).stamp_subgrid_with_rules (0, 0)
        (⟨(2, 2), (1, 1), 9, [9, 9, 9, 9]⟩ : Grid Int)
        [fun _ v => if v = 8 then .error .RuleFailed else .ok ()] =
      (.error .RuleFailed, ⟨(2, 2), (1, 1), 5, [9, 9, 9, 8]⟩) :=
  ⟨by rfl,
   C9_stamp_rules_stops (⟨(2, 2), (1, 1), 5, [5, 6, 7, 8]⟩ : Grid Int)
     (⟨(2, 2), (1, 1), 9, [9, 9, 9, 9]⟩ : Grid Int) (0, 0)
     [fun _ v => if v = 8 then .error .RuleFailed else .ok ()]
     [(0, 0, 9), (0, 1, 9), (1, 0, 9)] [] 1 1 9 9 8 .RuleFailed
     (⟨(2, 2), (1, 1), 5, [9, 9, 9, 8]⟩ : Grid Int)
     (by rfl) (by rfl) (by rfl) (by rfl) (by rfl) (by rfl) (by rfl)⟩

/-- Euclidean division of `a + b * rows` by `rows` for a remainder already in
range. -/
theorem div_helper (rows a b : Int) (h0 : 0 ≤ a) (h1 : a < rows) :
    (a + b * rows) / rows = b := by
  rw [Int.add_mul_ediv_right _ _ (by omega : rows ≠ 0)]
  rw [Int.ediv_eq_zero_of_lt h0 h1]
  omega

/-- Euclidean remainder of `a + b * rows` modulo `rows` for a remainder
already in range. -/
theorem mod_helper (rows a b : Int) (h0 : 0 ≤ a) (h1 : a < rows) :
    (a + b * rows) % rows = a := by
  rw [Int.add_mul_emod_self]
  exact Int.emod_eq_of_lt h0 h1

/-- Defining equation of the coordinate generator. -/
theorem enumFrom_succ (rows : Int) (n idx : Nat) (x y : Int) :
    enumFrom rows (n + 1) idx x y =
      if (idx : Int) % rows = 0 ∧ 1 < idx then
        (x + 1, 0) :: enumFrom rows n (idx + 1) (x + 1) 1
      else
        (x, y) :: enumFrom rows n (idx + 1) x (y + 1) := rfl

/-- Closed form of the coordinate generator for `rows ≥ 2`: starting from the
loop state reached just before index `idx ≥ 1`, it emits
`(i / rows, i % rows)` for each subsequent index `i`. -/
theorem enumFrom_closed (rows : Int) (h2 : 2 ≤ rows) :
    ∀ (n idx : Nat) (x y : Int), 1 ≤ idx →
      x = ((idx : Int) - 1) / rows → y = ((idx : Int) - 1) % rows + 1 →
      enumFrom rows n idx x y =
        (List.range' idx n).map fun i : Nat => ((i : Int) / rows, (i : Int) % rows) := by
  intro n
  induction n with
  | zero => intro idx x y h1 hx hy; rfl
  | succ n ih =>
      intro idx x y h1 hx hy
      rw [List.range'_succ, List.map_cons, enumFrom_succ]
      have hq := Int.ediv_add_emod (idx : Int) rows
      have hcast : ((idx + 1 : Nat) : Int) - 1 = (idx : Int) := by push_cast; ring
      by_cases hcond : (idx : Int) % rows = 0 ∧ 1 < idx
      · rw [if_pos hcond]
        obtain ⟨hm, hgt⟩ := hcond
        have he : (idx : Int) - 1 = (rows - 1) + ((idx : Int) / rows - 1) * rows := by
          linear_combination hm - hq
        have hstep : ((idx : Int) - 1) / rows = (idx : Int) / rows - 1 := by
          rw [he, div_helper rows _ _ (by linarith) (by linarith)]
        congr 1
        · rw [hx, hstep, hm]
          simp
        · exact ih (idx + 1) (x + 1) 1 (by omega)
            (by rw [hcast, hx, hstep]; ring) (by rw [hcast, hm]; ring)
      · rw [if_neg hcond]
        have hr0 : 0 ≤ (idx : Int) % rows := Int.emod_nonneg _ (by omega)
        have hrlt : (idx : Int) % rows < rows := Int.emod_lt_of_pos _ (by omega)
        have hmod : 1 ≤ (idx : Int) % rows := by
          rcases Nat.lt_or_ge idx 2 with hlt | hge
          · have hidx1 : idx = 1 := by omega
            subst hidx1
            rw [Int.emod_eq_of_lt (by norm_num) (by omega)]
            norm_num
          · have hne : (idx : Int) % rows ≠ 0 := fun hm => hcond ⟨hm, by omega⟩
            have hpos : 0 < (idx : Int) % rows := lt_of_le_of_ne hr0 (Ne.symm hne)
            exact hpos
        have he : (idx : Int) - 1 =
            ((idx : Int) % rows - 1) + ((idx : Int) / rows) * rows := by
          linear_combination -hq
        have hstep1 : ((idx : Int) - 1) / rows = (idx : Int) / rows := by
          rw [he, div_helper rows _ _ (by linarith) (by linarith)]
        have hstep2 : ((idx : Int) - 1) % rows = (idx : Int) % rows - 1 := by
          rw [he, mod_helper rows _ _ (by linarith) (by linarith)]
        congr 1
        · rw [hx, hy, hstep1, hstep2]
          simp
        · exact ih (idx + 1) x (y + 1) (by omega)
            (by rw [hcast, hx, hstep1]) (by rw [hcast, hy, hstep2]; ring)

/-- Closed form of `enumerate` for grids with at least two rows: the k-th
entry is `(k / rows, k % rows)`. -/
theorem enumerate_closed (g : Grid T) (h2 : 2 ≤ g.rows) :
    g.enumerate =
      (List.range g.cells.length).map fun i : Nat => ((i : Int) / g.rows, (i : Int) % g.rows) := by
  show enumFrom g.rows g.cells.length 0 0 0 = _
  suffices h : ∀ n, enumFrom g.rows n 0 0 0 =
      (List.range n).map fun i : Nat => ((i : Int) / g.rows, (i : Int) % g.rows) by
    exact h _
  intro n
  cases n with
  | zero => rfl
  | succ m =>
      rw [enumFrom_succ]
      have hcond : ¬((0 : Nat) : Int) % g.rows = 0 ∧ 1 < (0 : Nat) → True := fun _ => trivial
      rw [if_neg (by omega : ¬(((0 : Nat) : Int) % g.rows = 0 ∧ 1 < (0 : Nat)))]
      rw [List.range_eq_range', List.range'_succ, List.map_cons]
      congr 1
      · rw [show (((0 : Nat) : Int) / g.rows, ((0 : Nat) : Int) % g.rows) = ((0 : Int), (0 : Int))
            from by norm_num]
      · exact enumFrom_closed g.rows h2 m 1 0 1 (le_refl 1) (by norm_num) (by norm_num)

/-- Claim C7 counterexample: on the single-row grid with `(rows, cols) =
(1, 2)`, `enumerate` returns `[(0, 0), (0, 1)]` — it emits the coordinate
`(0, 1)`, which the bounds check rejects, and never emits the accepted
coordinate `(1, 0)` (the loop's `idx > 1` reset guard misfires when
`rows = 1`). -/
theorem C7_counterexample :
    Grid.new (1, 2) (1, 1) (0 : Int) = some ⟨(1, 2), (1, 1), 0, [0, 0]⟩
    ∧ (⟨(1, 2), (1, 1), 0, [0, 0]⟩ : Grid Int).enumerate = [(0, 0), (0, 1)]
    ∧ (⟨(1, 2), (1, 1), 0, [0, 0]⟩ : Grid Int).check_grid_bounds (0, 1) = .error .OutOfGrid
    ∧ (⟨(1, 2), (1, 1), 0, [0, 0]⟩ : Grid Int).check_grid_bounds (1, 0) = .ok ()
    ∧ (1, 0) ∉ (⟨(1, 2), (1, 1), 0, [0, 0]⟩ : Grid Int).enumerate := by
  decide

/-- The enumerate specification on well-formed grids with at least two rows:
exactly `rows * cols` pairwise-distinct coordinates, covering exactly the set
accepted by the bounds check, with the k-th coordinate at flat cell index k. -/
theorem enumerate_spec_of_two_le (g : Grid T) (hWF : g.WF) (h2 : 2 ≤ g.rows) :
    g.enumerate.length = (g.rows * g.cols).toNat
    ∧ g.enumerate.Nodup
    ∧ (∀ p, p ∈ g.enumerate ↔ g.check_grid_bounds p = .ok ())
    ∧ ∀ (k : Nat) (hk : k < g.enumerate.length),
        (g.cellIndex (g.enumerate.get ⟨k, hk⟩)).toNat = k := by
  obtain ⟨hr, hc, hmax, hlen⟩ := hWF
  have hclosed := enumerate_closed g h2
  have hNcast : ((g.rows * g.cols).toNat : Int) = g.rows * g.cols :=
    Int.toNat_of_nonneg (mul_nonneg (le_of_lt hr) (le_of_lt hc))
  have hinj : Function.Injective
      (fun i : Nat => ((i : Int) / g.rows, (i : Int) % g.rows)) := by
    intro a b hab
    have h1 : (a : Int) / g.rows = (b : Int) / g.rows := congrArg Prod.fst hab
    have hmm : (a : Int) % g.rows = (b : Int) % g.rows := congrArg Prod.snd hab
    have ha := Int.ediv_add_emod (a : Int) g.rows
    have hb := Int.ediv_add_emod (b : Int) g.rows
    have hab2 : (a : Int) = (b : Int) := by rw [← ha, ← hb, h1, hmm]
    exact_mod_cast hab2
  refine ⟨?_, ?_, ?_, ?_⟩
  · rw [hclosed, List.length_map, List.length_range, hlen]
  · rw [hclosed]
    exact (List.nodup_range _).map hinj
  · intro p
    constructor
    · intro hp
      rw [hclosed] at hp
      obtain ⟨i, hi, rfl⟩ := List.mem_map.mp hp
      have hiN : i < g.cells.length := List.mem_range.mp hi
      have hicast : (i : Int) < g.rows * g.cols := by
        have h1 : (i : Int) < (g.cells.length : Int) := by exact_mod_cast hiN
        rw [hlen, hNcast] at h1
        exact h1
      rw [check_grid_bounds_ok_iff]
      refine ⟨Int.ediv_nonneg (by positivity) (le_of_lt hr), ?_,
        Int.emod_nonneg _ (ne_of_gt hr), Int.emod_lt_of_pos _ hr⟩
      rw [Int.ediv_lt_iff_lt_mul hr]
      have hcomm : g.rows * g.cols = g.cols * g.rows := mul_comm _ _
      linarith
    · intro hb
      have hWF2 : g.WF := ⟨hr, hc, hmax, hlen⟩
      obtain ⟨h0, -, hidxlen⟩ := cellIndex_bounds g hWF2 hb
      obtain ⟨hx0, hxc, hy0, hyr⟩ := (check_grid_bounds_ok_iff g p).mp hb
      rw [hclosed]
      refine List.mem_map.mpr ⟨(g.cellIndex p).toNat, List.mem_range.mpr hidxlen, ?_⟩
      have hcast2 : (((g.cellIndex p).toNat : Nat) : Int) = g.cellIndex p :=
        Int.toNat_of_nonneg h0
      obtain ⟨px, py⟩ := p
      show ((((g.cellIndex (px, py)).toNat : Nat) : Int) / g.rows,
        (((g.cellIndex (px, py)).toNat : Nat) : Int) % g.rows) = (px, py)
      rw [hcast2]
      unfold Grid.cellIndex
      rw [show (px, py).1 * g.rows + (px, py).2 = py + px * g.rows from by ring]
      rw [div_helper g.rows py px hy0 hyr, mod_helper g.rows py px hy0 hyr]
  · intro k hk
    rw [List.get_of_eq hclosed ⟨k, hk⟩]
    have hk2 : k < (List.range g.cells.length).length := by
      rw [List.length_range]
      rw [hclosed, List.length_map, List.length_range] at hk
      exact hk
    rw [List.get_map]
    have hget : (List.range g.cells.length).get
        ⟨k, by simpa using hk2⟩ = k := by
      rw [List.get_eq_getElem, List.getElem_range]
    rw [hget]
    unfold Grid.cellIndex
    have hdm := Int.ediv_add_emod (k : Int) g.rows
    have hval : ((k : Int) / g.rows, (k : Int) % g.rows).1 * g.rows +
        ((k : Int) / g.rows, (k : Int) % g.rows).2 = (k : Int) := by
      show (k : Int) / g.rows * g.rows + (k : Int) % g.rows = (k : Int)
      linarith
    rw [hval, Int.toNat_natCast]

/-- The enumerate specification also holds on well-formed 1 x 1 grids, where
`enumerate` is the singleton `[(0, 0)]`. -/
theorem enumerate_spec_of_one_one (g : Grid T) (hWF : g.WF)
    (hr1 : g.rows = 1) (hc1 : g.cols = 1) :
    g.enumerate.length = (g.rows * g.cols).toNat
    ∧ g.enumerate.Nodup
    ∧ (∀ p, p ∈ g.enumerate ↔ g.check_grid_bounds p = .ok ())
    ∧ ∀ (k : Nat) (hk : k < g.enumerate.length),
        (g.cellIndex (g.enumerate.get ⟨k, hk⟩)).toNat = k := by
  obtain ⟨-, -, -, hlen⟩ := hWF
  have hlen1 : g.cells.length = 1 := by rw [hlen, hr1, hc1]; rfl
  have henum : g.enumerate = [((0 : Int), (0 : Int))] := by
    unfold Grid.enumerate
    rw [hlen1, hr1]
    decide
  refine ⟨?_, ?_, ?_, ?_⟩
  · rw [henum, hr1, hc1]
    rfl
  · rw [henum]
    simp
  · intro p
    rw [henum, check_grid_bounds_ok_iff, hr1, hc1]
    obtain ⟨px, py⟩ := p
    simp only [List.mem_singleton, Prod.mk.injEq]
    constructor
    · rintro ⟨hpx, hpy⟩
      subst hpx
      subst hpy
      norm_num
    · rintro ⟨h1, h2, h3, h4⟩
      omega
  · intro k hk
    rw [List.get_of_eq henum ⟨k, hk⟩]
    have hk1 : k = 0 := by
      have hh := hk
      rw [henum] at hh
      simpa using hh
    subst hk1
    show (g.cellIndex ((0 : Int), (0 : Int))).toNat = 0
    unfold Grid.cellIndex
    simp

/-- Claim C7 as amended: on every well-formed grid that is not a single-row
grid with at least two columns (the one shape the counterexample exhibits),
`enumerate` returns exactly `rows * cols` pairwise-distinct coordinates,
covering exactly the set accepted by the bounds check, and the k-th
enumerated coordinate has flat cell index k. -/
theorem C7_enumerate_amended (g : Grid T) (hWF : g.WF)
    (hok : ¬(g.rows = 1 ∧ 2 ≤ g.cols)) :
    g.enumerate.length = (g.rows * g.cols).toNat
    ∧ g.enumerate.Nodup
    ∧ (∀ p, p ∈ g.enumerate ↔ g.check_grid_bounds p = .ok ())
    ∧ ∀ (k : Nat) (hk : k < g.enumerate.length),
        (g.cellIndex (g.enumerate.get ⟨k, hk⟩)).toNat = k := by
  have hr := hWF.1
  have hc := hWF.2.1
  rcases lt_or_le g.rows 2 with hlt | h2
  · have hr1 : g.rows = 1 := by omega
    have hc1 : g.cols = 1 := by
      rcases lt_or_le g.cols 2 with hclt | hcge
      · omega
      · exact absurd ⟨hr1, hcge⟩ hok
    exact enumerate_spec_of_one_one g hWF hr1 hc1
  · exact enumerate_spec_of_two_le g hWF h2

/-- Witness for the amended C7 at a concrete 2 x 2 grid. -/
theorem C7_witness :
    (⟨(2, 2), (1, 1), 0, [0, 0, 0, 0]⟩ : Grid Int).WF
    ∧ ¬((⟨(2, 2), (1, 1), 0, [0, 0, 0, 0]⟩ : Grid Int).rows = 1
        ∧ 2 ≤ (⟨(2, 2), (1, 1), 0, [0, 0, 0, 0]⟩ : Grid Int).cols)
    ∧ ((⟨(2, 2), (1, 1), 0, [0, 0, 0, 0]⟩ : Grid Int).enumerate.length =
        ((⟨(2, 2), (1, 1), 0, [0, 0, 0, 0]⟩ : Grid Int).rows *
          (⟨(2, 2), (1, 1), 0, [0, 0, 0, 0]⟩ : Grid Int).cols).toNat
      ∧ (⟨(2, 2), (1, 1), 0, [0, 0, 0, 0]⟩ : Grid Int).enumerate.Nodup
      ∧ (∀ p, p ∈ (⟨(2, 2), (1, 1), 0, [0, 0, 0, 0]⟩ : Grid Int).enumerate ↔
          (⟨(2, 2), (1, 1), 0, [0, 0, 0, 0]⟩ : Grid Int).check_grid_bounds p = .ok ())
      ∧ ∀ (k : Nat) (hk : k < (⟨(2, 2), (1, 1), 0, [0, 0, 0, 0]⟩ : Grid Int).enumerate.length),
          ((⟨(2, 2), (1, 1), 0, [0, 0, 0, 0]⟩ : Grid Int).cellIndex
            ((⟨(2, 2), (1, 1), 0, [0, 0, 0, 0]⟩ : Grid Int).enumerate.get ⟨k, hk⟩)).toNat = k) :=
  ⟨by decide, by decide,
   C7_enumerate_amended (⟨(2, 2), (1, 1), 0, [0, 0, 0, 0]⟩ : Grid Int) (by decide) (by decide)⟩

/-- Witness for C1 at a concrete 2 x 2 grid, `p = (0, 1)`, `v = 7`. -/
theorem C1_witness :
    (⟨(2, 2), (1, 1), 0, [0, 0, 0, 0]⟩ : Grid Int).get_mut_read (0, 0) = .ok 0 ∧
    (((⟨(2, 2), (1, 1), 0, [0, 0, 0, 0]⟩ : Grid Int).set (0, 1) 7).2).get (0, 1) = .ok 7 :=
  ⟨by decide,
   C1_set_then_get (⟨(2, 2), (1, 1), 0, [0, 0, 0, 0]⟩ : Grid Int) (by decide) (0, 1) 7
     (by decide)⟩

end DasGrid
